import Mathlib

/-!
Shallow embedding of the CraftHub content-hub application (React + Supabase):
the `App` component (rating, comments, download, category filter), the
`AdminPanel` component (upload, submit, delete, file-size cap) and the
server-side download API route. JavaScript numbers that hold ratings are
modelled as rationals; `Number.prototype.toFixed` is modelled as rounding
to the nearest decimal at the requested precision. Network effects are made
explicit: each handler takes the backend outcome as a parameter and returns
the list of remote calls it issues alongside the new local view state.
-/

/-- A row of the `comments` table as held in client state. -/
structure Comment where
  id : String
  content_id : String
  author : String
  text : String
  created_at : String
deriving DecidableEq, Repr

/-- A row of the `content` table as held in client state (interface
`ContentCard` in the source). Optional fields are `Option`; the JS number
`rating` is modelled as a rational. -/
structure ContentCard where
  id : String
  title : String
  author : String
  type : String
  downloads : Nat
  image : String
  rating : ℚ
  ratings_count : Option Nat
  description : Option String
  version : Option String
  file_size : Option String
  file_url : Option String
  created_at : Option String
  updated_at : Option String
deriving DecidableEq, Repr

/-- Rounding to one decimal place: the model of
`parseFloat(x.toFixed(1))` used by `handleRate`. -/
def round1 (q : ℚ) : ℚ := (⌊q * 10 + 1 / 2⌋ : ℚ) / 10

/-- The `rating`/`ratings_count` pair that `handleRate` sends to the
backend in its `update` call. -/
structure RatePayload where
  rating : ℚ
  ratings_count : Nat
deriving DecidableEq, Repr

/-- The computation inside `handleRate` (src/unnamed/part_000 lines
202-214): `currentRating = content.rating || 0`,
`ratingsCount = content.ratings_count || 0`,
`newRating = ((currentRating * ratingsCount) + rating) / newRatingsCount`,
rounded to one decimal for the update payload. -/
def computeRatePayload (content : ContentCard) (star : ℤ) : RatePayload :=
  let currentRating : ℚ := content.rating
  let ratingsCount : ℕ := content.ratings_count.getD 0
  let newRatingsCount : ℕ := ratingsCount + 1
  let newRating : ℚ :=
    (currentRating * (ratingsCount : ℚ) + (star : ℚ)) / (newRatingsCount : ℚ)
  ⟨round1 newRating, newRatingsCount⟩

/-- Model of `handleRate` folded over the local copy of the rated card:
when the backend `update` succeeds the card is replaced by the updated
copy; when it reports an error the handler returns before touching local
state (src/unnamed/part_000 lines 217-238). -/
def handleRate (content : ContentCard) (star : ℤ) (backendOk : Bool) :
    ContentCard :=
  if backendOk then
    let p := computeRatePayload content star
    { content with rating := p.rating, ratings_count := some p.ratings_count }
  else
    content

/-- A concrete content card with no prior ratings, used as witness input. -/
def sampleCard : ContentCard :=
  { id := "c-1", title := "Test Pack", author := "admin",
    type := "Resource Pack", downloads := 0, image := "img",
    rating := 0, ratings_count := none, description := none,
    version := none, file_size := none, file_url := none,
    created_at := none, updated_at := none }

/-- Outcome of the remote `content` delete call inside `handleDelete`:
the Supabase client resolves with an error value (`errResp`), resolves
cleanly (`ok`), or the awaited expression throws (`exn`). -/
inductive DeleteOutcome where
  | ok
  | errResp
  | exn
deriving DecidableEq, Repr

/-- Local state of the `AdminPanel` component that `handleDelete` touches:
the `content` list and the `error` banner message. -/
structure AdminState where
  content : List ContentCard
  errorMsg : Option String
deriving DecidableEq, Repr

/-- Model of `fetchContent` in `AdminPanel` (src/unnamed/part_000 lines
749-761): re-reads the full `content` table (ordered by `created_at`
descending) and replaces the local list. The remote store is passed in
already in that order. -/
def adminFetchContent (remote : List ContentCard) (st : AdminState) :
    AdminState :=
  { st with content := remote }

/-- Model of `handleDelete` (src/unnamed/part_000 lines 887-917).
`setError(null)` runs first. On a resolved error value the item is
filtered out of local state and the failure is only logged to the
console; on success the remote row is gone and `fetchContent` refreshes
the list from the server; on a thrown exception `setError` posts a
user-visible message and the item is filtered out of local state.
Returns the new component state and the remote table after the call. -/
def handleDelete (remote : List ContentCard) (id : String)
    (outcome : DeleteOutcome) (st : AdminState) :
    AdminState × List ContentCard :=
  let st0 : AdminState := { st with errorMsg := none }
  match outcome with
  | .ok =>
      let remote1 := remote.filter (fun item => item.id != id)
      (adminFetchContent remote1 st0, remote1)
  | .errResp =>
      ({ st0 with content := st0.content.filter (fun item => item.id != id) },
        remote)
  | .exn =>
      ({ st0 with
          errorMsg :=
            some "Failed to delete content on server, but removed from view.",
          content := st0.content.filter (fun item => item.id != id) },
        remote)

/-- Remote calls issued against the `comments` table. -/
inductive CommentEvent where
  | insertRow (content_id : String) (author : String) (text : String)
  | fetchAll (content_id : String)
  | deleteRow (id : String)
deriving DecidableEq, Repr

/-- Backend outcome of the `comments` insert in `postComment`: an error
value, a success echoing the created row, or a success whose `data` array
comes back empty. -/
inductive PostOutcome where
  | err (msg : String)
  | okEcho (row : Comment)
  | okNoEcho
deriving DecidableEq, Repr

/-- Result of `postComment`: the new local comment list, the remote calls
issued, and the alert shown to the user (if any). -/
structure PostResult where
  comments : List Comment
  events : List CommentEvent
  alertMsg : Option String
deriving DecidableEq, Repr

/-- Model of `postComment` (src/unnamed/part_000 lines 268-319). Empty
trimmed author or text aborts with an alert before any network call; on
success with the new row echoed back it is prepended to local state; on
success with no row echoed the full comment list is re-fetched (`fetched`
is the refreshed list `fetchComments` stores). -/
def postComment (contentId author text : String) (outcome : PostOutcome)
    (fetched : List Comment) (comments : List Comment) : PostResult :=
  if author.trim.isEmpty || text.trim.isEmpty then
    ⟨comments, [], some "Please enter your name and comment"⟩
  else
    let ev := CommentEvent.insertRow contentId author.trim text.trim
    match outcome with
    | .err msg => ⟨comments, [ev], some ("Failed to post comment: " ++ msg)⟩
    | .okEcho row =>
        ⟨row :: comments, [ev], some "Comment posted successfully!"⟩
    | .okNoEcho =>
        ⟨fetched, [ev, CommentEvent.fetchAll contentId], none⟩

/-- A concrete comment row used as witness input. -/
def sampleComment : Comment :=
  { id := "m-1", content_id := "c-1", author := "alice",
    text := "nice pack", created_at := "2025-03-26" }

/-- Result of `deleteComment`: new local comment list, remote calls
issued, and the alert shown. -/
structure DeleteCommentResult where
  comments : List Comment
  events : List CommentEvent
  alertMsg : Option String
deriving DecidableEq, Repr

/-- Model of `deleteComment` (src/unnamed/part_000 lines 321-349). A
non-admin session is rejected with an alert before any network call; an
admin session issues the remote delete, and on success the comment is
filtered out of local state, while an error value leaves the list
unchanged and alerts with the backend message. `remoteErr = some msg`
models the call resolving with an error. -/
def deleteComment (isAdmin : Bool) (commentId : String)
    (remoteErr : Option String) (comments : List Comment) :
    DeleteCommentResult :=
  if !isAdmin then
    ⟨comments, [], some "Only administrators can delete comments."⟩
  else
    match remoteErr with
    | some msg =>
        ⟨comments, [CommentEvent.deleteRow commentId],
          some ("Failed to delete comment: " ++ msg)⟩
    | none =>
        ⟨comments.filter (fun c => c.id != commentId),
          [CommentEvent.deleteRow commentId],
          some "Comment deleted successfully"⟩

/-- The character class of the regex `[^a-z0-9]` with the `i` flag: ASCII
letters (either case) and ASCII digits. -/
def isAsciiAlphanum (c : Char) : Bool :=
  (('a' ≤ c && c ≤ 'z') || ('A' ≤ c && c ≤ 'Z') || ('0' ≤ c && c ≤ '9'))

/-- Model of `title.replace(/[^a-z0-9]/gi, '_')`: every character outside
the ASCII alphanumeric class becomes an underscore. Used both by the
client-side `handleDownload` and by the server-side download route. -/
def sanitizeTitle (title : String) : String :=
  ⟨title.data.map (fun c => if isAsciiAlphanum c then c else '_')⟩

/-- Model of `content.file_url.split('.').pop()?.toLowerCase() || 'html'`
in `handleDownload`: the last dot-separated segment of the URL,
lowercased, defaulting to `html` when that segment is empty. -/
def fileExtOfUrl (url : String) : String :=
  let e := ((url.splitOn ".").getLastD "").toLower
  if e.isEmpty then "html" else e

/-- JavaScript truthiness of `content.file_url` (an optional string):
falsy when absent or when the string is empty. -/
def jsFalsyStr (s : Option String) : Bool :=
  match s with
  | none => true
  | some t => t.isEmpty

/-- Remote effects of `handleDownload`: the best-effort download counter
update, the fetch of the file bytes, the forced browser-local save of the
re-wrapped blob, and the fallback new-tab open. -/
inductive DlEvent where
  | counterUpdate (id : String) (newDownloads : Nat)
  | fileFetch (url : String)
  | forcedSave (fileName : String)
  | openTab (url : String)
deriving DecidableEq, Repr

/-- Model of `handleDownload` (src/unnamed/part_000 lines 125-194).
Without a file reference it alerts and returns before any network
activity. Otherwise it fires the counter update, fetches the bytes, and
either force-saves under a name derived from the title and the URL
extension, or — when the fetch or save throws (`fetchOk = false`) —
falls back to opening the URL in a new tab with an alert. Returns the
events issued and the alert shown. -/
def handleDownload (content : ContentCard) (fetchOk : Bool) :
    List DlEvent × Option String :=
  if jsFalsyStr content.file_url then
    ([], some "No file available for download.")
  else
    let url := content.file_url.getD ""
    let counterEv := DlEvent.counterUpdate content.id (content.downloads + 1)
    if fetchOk then
      let fileName := sanitizeTitle content.title ++ "." ++ fileExtOfUrl url
      ([counterEv, .fileFetch url, .forcedSave fileName], none)
    else
      ([counterEv, .fileFetch url, .openTab url],
        some "Download started in a new tab. You may need to save the file manually.")

/-- The category predicate inside the filter effect of `App`
(src/unnamed/part_000 lines 54-65): the `switch` over `activeCategory`. -/
def categoryMatches (activeCategory : String) (content : ContentCard) :
    Bool :=
  match activeCategory with
  | "resource-packs" => content.type == "Resource Pack"
  | "mods" => content.type == "Mod"
  | "clients" => content.type == "Client"
  | _ => true

/-- The filter effect of `App` (src/unnamed/part_000 lines 49-68):
recomputes `filteredContent` from `activeCategory` and the already
fetched `featuredContent`. -/
def filterEffect (activeCategory : String)
    (featuredContent : List ContentCard) : List ContentCard :=
  if activeCategory == "all" then featuredContent
  else featuredContent.filter (categoryMatches activeCategory)

/-- Browsing state touched by a category change. -/
structure BrowseState where
  activeCategory : String
  featuredContent : List ContentCard
  filteredContent : List ContentCard
deriving DecidableEq, Repr

/-- Remote reads issued by the browsing view. -/
inductive FetchEvent where
  | remoteFetch
deriving DecidableEq, Repr

/-- Clicking a category button (src/unnamed/part_000 line 610) sets
`activeCategory`; the effect at lines 49-68 then recomputes
`filteredContent` purely from the fetched list. No remote call is made. -/
def setActiveCategory (cat : String) (st : BrowseState) :
    BrowseState × List FetchEvent :=
  ({ st with
      activeCategory := cat,
      filteredContent := filterEffect cat st.featuredContent }, [])

/-- A file picked in the admin form: original name, byte size, and the
declared MIME type. -/
structure FileDesc where
  name : String
  size : Nat
  mime : String
deriving DecidableEq, Repr

/-- Model of `file.name.split('.').pop()` in `uploadFile`: the last
dot-separated segment of the original file name. -/
def fileExtOf (name : String) : String :=
  (name.splitOn ".").getLastD ""

/-- The content type sent with the storage upload (src/unnamed/part_000
lines 782-786): the file's declared MIME type, overridden to
`application/octet-stream` when the declared type is `text/html` or the
extension lowercases to `html`. -/
def uploadContentType (f : FileDesc) : String :=
  if f.mime == "text/html" || (fileExtOf f.name).toLower == "html" then
    "application/octet-stream"
  else
    f.mime

/-- The stored object name: the random token, a dash, then the original
file name (src/unnamed/part_000 line 779). -/
def uploadedFileName (uniqueId : String) (f : FileDesc) : String :=
  uniqueId ++ "-" ++ f.name

/-- The storage path `content/<fileName>` (src/unnamed/part_000
line 780). -/
def uploadedFilePath (uniqueId : String) (f : FileDesc) : String :=
  "content/" ++ uploadedFileName uniqueId f

/-- Model of `(file.size / (1024 * 1024)).toFixed(2)`: the byte size in
megabytes rounded to two decimal places, printed with an integer part, a
dot, and exactly two fraction digits. -/
def toFixed2MB (bytes : Nat) : String :=
  let scaled := (bytes * 100 + 524288) / 1048576
  toString (scaled / 100) ++ "." ++
    String.mk [Nat.digitChar (scaled / 10 % 10), Nat.digitChar (scaled % 10)]

/-- The human-readable size returned by `uploadFile`:
`(file.size / (1024 * 1024)).toFixed(2) + 'MB'`. -/
def mbSizeString (bytes : Nat) : String :=
  toFixed2MB bytes ++ "MB"

/-- Model of `getPublicUrl(filePath)`: the storage endpoint base followed
by the object path. -/
def publicUrlOf (storageBase path : String) : String :=
  storageBase ++ path

/-- What `uploadFile` returns on success: the public URL and the size
string. -/
structure UploadData where
  url : String
  size : String
deriving DecidableEq, Repr

/-- The fields of `ContentFormData` in `AdminPanel`. -/
structure ContentFormData where
  title : String
  type : String
  description : String
  version : String
  file_size : String
  image : String
  file_url : Option String
deriving DecidableEq, Repr

/-- Remote calls issued by the admin form: the storage upload, the
`content` insert (which also sends `downloads: 0, rating: 0,
author: 'admin'`), the `content` update (which also refreshes
`updated_at`), and the closing `fetchContent`. -/
inductive SubmitEvent where
  | storageUpload (path : String) (contentType : String)
  | insertRow (rec : ContentFormData) (downloads : Nat) (rating : ℚ)
      (author : String)
  | updateRow (id : String) (rec : ContentFormData) (updated_at : String)
  | refetch
deriving DecidableEq, Repr

/-- Model of `uploadFile` (src/unnamed/part_000 lines 772-813): derives
the unique object path and the (possibly overridden) content type,
issues the storage upload, and on success returns the public URL with
the formatted size; a storage error is re-thrown to the caller.
`uniqueId` stands for `Math.random().toString(36).substring(2)` and
`storageBase` for the storage endpoint prefix of `getPublicUrl`. -/
def uploadFile (storageBase uniqueId : String) (f : FileDesc)
    (uploadOk : Bool) : Except String UploadData × List SubmitEvent :=
  let filePath := uploadedFilePath uniqueId f
  let contentType := uploadContentType f
  let events := [SubmitEvent.storageUpload filePath contentType]
  if uploadOk then
    (.ok ⟨publicUrlOf storageBase filePath, mbSizeString f.size⟩, events)
  else
    (.error "upload failed", events)

/-- JavaScript `a || b` over a string and an optional string, as in
`fileData?.url || formData.file_url`. -/
def jsOrOpt (a : String) (b : Option String) : Option String :=
  if a.isEmpty then b else some a

/-- JavaScript `a || b` over two strings, as in
`fileData?.size || formData.file_size`. -/
def jsOr (a b : String) : String :=
  if a.isEmpty then b else a

/-- The write step of `handleSubmit` (src/unnamed/part_000 lines
831-854): an update of the edited row (with a fresh `updated_at`) or an
insert of a new row with zero downloads, zero rating and the fixed
`admin` author; a resolved error is thrown, caught by the surrounding
handler, and surfaced as the save-failure banner, while success re-runs
`fetchContent`. -/
def submitWrite (contentData : ContentFormData) (isEditing : Option String)
    (writeOk : Bool) (timestamp : String) (events : List SubmitEvent) :
    List SubmitEvent × Option String :=
  match isEditing with
  | some id =>
      let ev := SubmitEvent.updateRow id contentData timestamp
      if writeOk then
        (events ++ [ev, SubmitEvent.refetch], none)
      else
        (events ++ [ev], some "Failed to save content. Please try again.")
  | none =>
      let ev := SubmitEvent.insertRow contentData 0 0 "admin"
      if writeOk then
        (events ++ [ev, SubmitEvent.refetch], none)
      else
        (events ++ [ev], some "Failed to save content. Please try again.")

/-- Model of `handleSubmit` (src/unnamed/part_000 lines 815-872): with a
file attached, `uploadFile` runs first and a thrown upload error is
caught before any record write; otherwise the record is written carrying
`fileData?.size || formData.file_size` and
`fileData?.url || formData.file_url`. -/
def handleSubmit (storageBase uniqueId : String)
    (formData : ContentFormData) (file : Option FileDesc)
    (isEditing : Option String) (uploadOk writeOk : Bool)
    (timestamp : String) : List SubmitEvent × Option String :=
  match file with
  | none =>
      submitWrite formData isEditing writeOk timestamp []
  | some f =>
      match uploadFile storageBase uniqueId f uploadOk with
      | (.error _, events) =>
          (events, some "Failed to save content. Please try again.")
      | (.ok fileData, events) =>
          let contentData : ContentFormData :=
            { formData with
                file_size := jsOr fileData.size formData.file_size,
                file_url := jsOrOpt fileData.url formData.file_url }
          submitWrite contentData isEditing writeOk timestamp events

/-- A concrete HTML file used as witness input: 1 MiB, declared as
`text/html`. -/
def sampleHtmlFile : FileDesc :=
  { name := "page.html", size := 1048576, mime := "text/html" }

/-- State touched by `handleFileChange`: the pending `file`, the file
input's `value`, and the `error` banner. -/
structure FileInputState where
  file : Option FileDesc
  inputValue : String
  errorMsg : Option String
deriving DecidableEq, Repr

/-- Model of `handleFileChange` (src/unnamed/part_000 lines 924-935): a
selected file larger than 50MB sets the error banner and resets the
input before returning — `setFile` never runs; otherwise the selection
(or its absence) is stored and the error cleared. No network call is
issued. -/
def handleFileChange (selected : Option FileDesc) (st : FileInputState) :
    FileInputState × List SubmitEvent :=
  match selected with
  | some f =>
      if f.size > 50 * 1024 * 1024 then
        ({ st with
            errorMsg :=
              some "File size exceeds the 50MB limit. Please select a smaller file.",
            inputValue := "" }, [])
      else
        ({ st with file := some f, errorMsg := none }, [])
  | none =>
      ({ st with file := none, errorMsg := none }, [])

/-- The row the server-side download route reads from the `content`
table: `file_url, title, downloads`. -/
structure DownloadRec where
  file_url : String
  title : String
  downloads : Option Nat
deriving DecidableEq, Repr

/-- Outcome of the server-side download route: a 404 when the record
lookup fails, otherwise the file streamed back with the download
headers. -/
inductive ApiResponse where
  | notFound
  | fileAttachment (contentDisposition : String) (contentType : String)
      (newDownloads : Nat)
deriving DecidableEq, Repr

/-- The Content-Disposition header of a route response, when present. -/
def ApiResponse.disposition : ApiResponse → Option String
  | .notFound => none
  | .fileAttachment cd _ _ => some cd

/-- The server-side download route handler
(src/src/pages/api/download.ts lines 13-41): a missing record yields 404;
otherwise the download counter is incremented and the bytes are sent with
`Content-Disposition: attachment; filename="<title with non-alphanumerics
replaced by underscores>.html"` and a binary content type. -/
def downloadApiHandler (lookup : Option DownloadRec) : ApiResponse :=
  match lookup with
  | none => .notFound
  | some d =>
      .fileAttachment
        ("attachment; filename=\"" ++ sanitizeTitle d.title ++ ".html\"")
        "application/octet-stream"
        (d.downloads.getD 0 + 1)

/-- A string of positive length is not empty (JS-truthy). -/
theorem isEmpty_eq_false_of_length_pos (s : String) (h : 0 < s.length) :
    s.isEmpty = false := by
  cases he : s.isEmpty
  · rfl
  · rw [(String.isEmpty_iff s).mp he] at h
    simp at h

/-- The public URL produced by `uploadFile` is never the empty string:
it always contains the `content/` path segment. -/
theorem publicUrl_isEmpty_false (storageBase uniqueId : String)
    (f : FileDesc) :
    (publicUrlOf storageBase (uploadedFilePath uniqueId f)).isEmpty =
      false := by
  apply isEmpty_eq_false_of_length_pos
  have h8 : ("content/" : String).length = 8 := rfl
  simp only [publicUrlOf, uploadedFilePath, uploadedFileName,
    String.length_append, h8]
  omega

/-- The formatted size string is never empty: it always ends in `MB`. -/
theorem mbSizeString_isEmpty_false (bytes : Nat) :
    (mbSizeString bytes).isEmpty = false := by
  apply isEmpty_eq_false_of_length_pos
  have h2 : ("MB" : String).length = 2 := rfl
  simp only [mbSizeString, String.length_append, h2]
  omega

/-- C1: rating an item with current rating R over N prior ratings using an
integer star S in 1..5 persists rating round1((R*N + S)/(N+1)) and count
N+1; with N = 0 and S = 4 the payload is exactly (4.0, 1); and on backend
failure the local card is unchanged. -/
theorem rate_persists_rounded_average (content : ContentCard) (star : ℤ)
    (h1 : 1 ≤ star) (h2 : star ≤ 5) :
    (computeRatePayload content star).rating =
      round1 ((content.rating * (content.ratings_count.getD 0 : ℚ) + (star : ℚ)) /
        ((content.ratings_count.getD 0 : ℚ) + 1)) ∧
    (computeRatePayload content star).ratings_count =
      content.ratings_count.getD 0 + 1 ∧
    (content.ratings_count.getD 0 = 0 → star = 4 →
      computeRatePayload content star = ⟨4, 1⟩) ∧
    handleRate content star false = content := by
  refine ⟨?_, rfl, ?_, rfl⟩
  · simp only [computeRatePayload]
    push_cast
    ring_nf
  · intro hN hS
    subst hS
    simp only [computeRatePayload, hN, RatePayload.mk.injEq]
    norm_num [round1]

/-- Witness for C1: the rating theorem applied at `sampleCard` with star 4. -/
theorem rate_persists_rounded_average_witness :
    (computeRatePayload sampleCard 4).rating =
      round1 ((sampleCard.rating * (sampleCard.ratings_count.getD 0 : ℚ) +
        ((4 : ℤ) : ℚ)) / ((sampleCard.ratings_count.getD 0 : ℚ) + 1)) ∧
    (computeRatePayload sampleCard 4).ratings_count =
      sampleCard.ratings_count.getD 0 + 1 ∧
    (sampleCard.ratings_count.getD 0 = 0 → (4 : ℤ) = 4 →
      computeRatePayload sampleCard 4 = ⟨4, 1⟩) ∧
    handleRate sampleCard 4 false = sampleCard :=
  rate_persists_rounded_average sampleCard 4 (by decide) (by decide)

/-- C2 counterexample: with one item in view and a remote delete that
resolves with an error value, the item is removed from the local list but
`error` stays `none` — no error is reported to the user (the failure is
only written to the console), refuting the claim that a user-visible
error accompanies every failed remote delete. -/
theorem delete_errResp_reports_no_user_error :
    (handleDelete [sampleCard] "c-1" .errResp
        ⟨[sampleCard], none⟩).1.content = [] ∧
    (handleDelete [sampleCard] "c-1" .errResp
        ⟨[sampleCard], none⟩).1.errorMsg = none := by
  constructor <;> rfl

/-- C2 (amended): after a confirmed delete the displayed list no longer
contains the item in every outcome (success, error response, exception);
a user-visible error message is set only when the call throws, while an
error-valued response is logged without any user-visible message. -/
theorem delete_always_removes_locally (remote : List ContentCard)
    (id : String) (st : AdminState) :
    (∀ outcome : DeleteOutcome,
      ((handleDelete remote id outcome st).1.content.all
        (fun item => item.id != id)) = true) ∧
    (handleDelete remote id .exn st).1.errorMsg =
      some "Failed to delete content on server, but removed from view." ∧
    (handleDelete remote id .errResp st).1.errorMsg = none ∧
    (handleDelete remote id .ok st).1.errorMsg = none := by
  refine ⟨?_, rfl, rfl, rfl⟩
  intro outcome
  have hfilter : ∀ l : List ContentCard,
      (l.filter (fun item => item.id != id)).all
        (fun item => item.id != id) = true := by
    intro l
    simp only [List.all_eq_true]
    intro x hx
    exact (List.mem_filter.mp hx).2
  cases outcome <;>
    simp only [handleDelete, adminFetchContent] <;> exact hfilter _

/-- C3: a post whose author or text is empty after trimming makes no
network call and leaves the comment list unchanged; a successful post
that echoes the new row prepends it; a successful post with no echoed row
re-fetches the full list. -/
theorem postComment_trim_reject_echo_prepend_refetch
    (contentId author text : String) (outcome : PostOutcome)
    (fetched comments : List Comment) :
    ((author.trim.isEmpty || text.trim.isEmpty) = true →
      (postComment contentId author text outcome fetched comments).events = []
        ∧
      (postComment contentId author text outcome fetched comments).comments =
        comments) ∧
    ((author.trim.isEmpty || text.trim.isEmpty) = false →
      (∀ row : Comment, outcome = .okEcho row →
        (postComment contentId author text outcome fetched
            comments).comments = row :: comments) ∧
      (outcome = .okNoEcho →
        (postComment contentId author text outcome fetched
            comments).comments = fetched ∧
        (postComment contentId author text outcome fetched
            comments).events =
          [CommentEvent.insertRow contentId author.trim text.trim,
            CommentEvent.fetchAll contentId])) := by
  constructor
  · intro h
    simp [postComment, h]
  · intro h
    constructor
    · intro row hrow
      subst hrow
      simp only [postComment, h]
      rfl
    · intro hno
      subst hno
      simp only [postComment, h]
      exact ⟨rfl, rfl⟩

/-- Witness for C3: the post theorem applied at a concrete post whose
author and text are non-empty and whose backend echoes the new row. -/
theorem postComment_trim_reject_echo_prepend_refetch_witness :
    ((("alice" : String).trim.isEmpty ||
        ("nice pack" : String).trim.isEmpty) = true →
      (postComment "c-1" "alice" "nice pack" (.okEcho sampleComment) []
          []).events = [] ∧
      (postComment "c-1" "alice" "nice pack" (.okEcho sampleComment) []
          []).comments = []) ∧
    ((("alice" : String).trim.isEmpty ||
        ("nice pack" : String).trim.isEmpty) = false →
      (∀ row : Comment, PostOutcome.okEcho sampleComment = .okEcho row →
        (postComment "c-1" "alice" "nice pack" (.okEcho sampleComment) []
            []).comments = row :: []) ∧
      (PostOutcome.okEcho sampleComment = .okNoEcho →
        (postComment "c-1" "alice" "nice pack" (.okEcho sampleComment) []
            []).comments = [] ∧
        (postComment "c-1" "alice" "nice pack" (.okEcho sampleComment) []
            []).events =
          [CommentEvent.insertRow "c-1" ("alice" : String).trim
              ("nice pack" : String).trim,
            CommentEvent.fetchAll "c-1"])) :=
  postComment_trim_reject_echo_prepend_refetch "c-1" "alice" "nice pack"
    (.okEcho sampleComment) [] []

/-- C5: a non-admin deletion attempt makes no network call, leaves the
list unchanged and shows an explanatory alert; an admin deletion whose
remote call succeeds removes the comment from local state. -/
theorem deleteComment_admin_gate (isAdmin : Bool) (commentId : String)
    (remoteErr : Option String) (comments : List Comment) :
    (isAdmin = false →
      deleteComment isAdmin commentId remoteErr comments =
        ⟨comments, [], some "Only administrators can delete comments."⟩) ∧
    (isAdmin = true → remoteErr = none →
      (deleteComment isAdmin commentId remoteErr comments).comments =
        comments.filter (fun c => c.id != commentId) ∧
      ((deleteComment isAdmin commentId remoteErr comments).comments.all
        (fun c => c.id != commentId)) = true) := by
  constructor
  · intro h
    subst h
    rfl
  · intro h hr
    subst h
    subst hr
    refine ⟨rfl, ?_⟩
    simp only [deleteComment, Bool.not_true, Bool.false_eq_true,
      if_false, List.all_eq_true]
    intro x hx
    exact (List.mem_filter.mp hx).2

/-- Witness for C5: the deletion theorem applied with a non-admin call on
a one-comment list. -/
theorem deleteComment_admin_gate_witness :
    (false = false →
      deleteComment false "m-1" none [sampleComment] =
        ⟨[sampleComment], [],
          some "Only administrators can delete comments."⟩) ∧
    (false = true → (none : Option String) = none →
      (deleteComment false "m-1" none [sampleComment]).comments =
        [sampleComment].filter (fun c => c.id != "m-1") ∧
      ((deleteComment false "m-1" none [sampleComment]).comments.all
        (fun c => c.id != "m-1")) = true) :=
  deleteComment_admin_gate false "m-1" none [sampleComment]

/-- C6: invoking the download action on an item with no file reference is
blocked before any network activity: no counter update, no file fetch, no
forced save — the handler issues no events and only shows an alert. -/
theorem download_blocked_without_file (content : ContentCard)
    (fetchOk : Bool) (h : content.file_url = none) :
    handleDownload content fetchOk =
      ([], some "No file available for download.") := by
  simp [handleDownload, jsFalsyStr, h]

/-- Witness for C6: the download-gate theorem applied to `sampleCard`,
which carries no file reference. -/
theorem download_blocked_without_file_witness :
    sampleCard.file_url = none ∧
    handleDownload sampleCard true =
      ([], some "No file available for download.") :=
  ⟨rfl, download_blocked_without_file sampleCard true rfl⟩

/-- C7: for each of the four category filters the displayed list is
exactly the subset of fetched items whose `type` matches the filter's tag
(the full fetched list for `all`), the fetched list itself is untouched,
and changing the filter issues no remote fetch. -/
theorem category_filter_exact_subset_no_refetch (st : BrowseState) :
    (setActiveCategory "all" st).1.filteredContent = st.featuredContent ∧
    (setActiveCategory "resource-packs" st).1.filteredContent =
      st.featuredContent.filter (fun c => c.type == "Resource Pack") ∧
    (setActiveCategory "mods" st).1.filteredContent =
      st.featuredContent.filter (fun c => c.type == "Mod") ∧
    (setActiveCategory "clients" st).1.filteredContent =
      st.featuredContent.filter (fun c => c.type == "Client") ∧
    (∀ cat : String,
      (setActiveCategory cat st).1.featuredContent = st.featuredContent ∧
      (setActiveCategory cat st).2 = []) := by
  refine ⟨rfl, rfl, rfl, rfl, fun cat => ⟨rfl, rfl⟩⟩

/-- C4: for a submission with a file attached, a failed upload stops the
handler after the single storage call — no insert and no update happens —
and the save-failure error is surfaced; a successful upload is followed
(in order) by the record write, and the written record carries the
upload's public URL and formatted size, for both the create and the edit
path. -/
theorem submit_uploads_before_write (storageBase uniqueId : String)
    (formData : ContentFormData) (f : FileDesc) (isEditing : Option String)
    (writeOk : Bool) (timestamp : String) :
    handleSubmit storageBase uniqueId formData (some f) isEditing false
        writeOk timestamp =
      ([SubmitEvent.storageUpload (uploadedFilePath uniqueId f)
          (uploadContentType f)],
        some "Failed to save content. Please try again.") ∧
    handleSubmit storageBase uniqueId formData (some f) none true true
        timestamp =
      ([SubmitEvent.storageUpload (uploadedFilePath uniqueId f)
          (uploadContentType f),
        SubmitEvent.insertRow
          { formData with
              file_size := mbSizeString f.size,
              file_url :=
                some (publicUrlOf storageBase
                  (uploadedFilePath uniqueId f)) }
          0 0 "admin",
        SubmitEvent.refetch], none) ∧
    (∀ id : String,
      handleSubmit storageBase uniqueId formData (some f) (some id) true
          true timestamp =
        ([SubmitEvent.storageUpload (uploadedFilePath uniqueId f)
            (uploadContentType f),
          SubmitEvent.updateRow id
            { formData with
                file_size := mbSizeString f.size,
                file_url :=
                  some (publicUrlOf storageBase
                    (uploadedFilePath uniqueId f)) }
            timestamp,
          SubmitEvent.refetch], none)) := by
  refine ⟨?_, ?_, ?_⟩
  · simp [handleSubmit, uploadFile]
  · simp [handleSubmit, uploadFile, submitWrite, jsOr, jsOrOpt,
      publicUrl_isEmpty_false, mbSizeString_isEmpty_false]
  · intro id
    simp [handleSubmit, uploadFile, submitWrite, jsOr, jsOrOpt,
      publicUrl_isEmpty_false, mbSizeString_isEmpty_false]

/-- C8: the stored object name is the original file name prefixed with
the random token and a dash; an HTML declared MIME type or an `html`
extension forces the stored content type to `application/octet-stream`;
and a successful upload returns the public reference URL together with a
size string made of an integer part, a dot, exactly two fraction digits
and the `MB` suffix. -/
theorem uploadFile_name_type_and_size (storageBase uniqueId : String)
    (f : FileDesc) :
    uploadedFilePath uniqueId f =
      "content/" ++ (uniqueId ++ "-" ++ f.name) ∧
    ((f.mime = "text/html" ∨ (fileExtOf f.name).toLower = "html") →
      uploadContentType f = "application/octet-stream") ∧
    (uploadFile storageBase uniqueId f true).1 =
      .ok ⟨publicUrlOf storageBase (uploadedFilePath uniqueId f),
        mbSizeString f.size⟩ ∧
    (∃ intPart fracPart : String, fracPart.length = 2 ∧
      mbSizeString f.size = intPart ++ "." ++ fracPart ++ "MB") := by
  refine ⟨rfl, ?_, rfl, ?_⟩
  · intro h
    rcases h with h | h <;> simp [uploadContentType, h]
  · refine ⟨toString ((f.size * 100 + 524288) / 1048576 / 100),
      String.mk [Nat.digitChar ((f.size * 100 + 524288) / 1048576 / 10 % 10),
        Nat.digitChar ((f.size * 100 + 524288) / 1048576 % 10)], rfl, rfl⟩

/-- Witness for C8: the upload theorem applied at a concrete HTML file,
whose content type is overridden. -/
theorem uploadFile_name_type_and_size_witness :
    uploadedFilePath "tok3n" sampleHtmlFile =
      "content/" ++ ("tok3n" ++ "-" ++ sampleHtmlFile.name) ∧
    ((sampleHtmlFile.mime = "text/html" ∨
        (fileExtOf sampleHtmlFile.name).toLower = "html") →
      uploadContentType sampleHtmlFile = "application/octet-stream") ∧
    (uploadFile "https://sto.example/" "tok3n" sampleHtmlFile true).1 =
      .ok ⟨publicUrlOf "https://sto.example/"
          (uploadedFilePath "tok3n" sampleHtmlFile),
        mbSizeString sampleHtmlFile.size⟩ ∧
    (∃ intPart fracPart : String, fracPart.length = 2 ∧
      mbSizeString sampleHtmlFile.size = intPart ++ "." ++ fracPart ++ "MB") :=
  uploadFile_name_type_and_size "https://sto.example/" "tok3n" sampleHtmlFile

/-- C9: selecting a file larger than 50MB is rejected with no network
call — a visible error is set, the file input is cleared, and the stored
form file is left untouched, so no upload of the oversized file can
occur. -/
theorem oversized_file_rejected_before_upload (f : FileDesc)
    (st : FileInputState) (h : f.size > 50 * 1024 * 1024) :
    (handleFileChange (some f) st).1.errorMsg =
      some "File size exceeds the 50MB limit. Please select a smaller file." ∧
    (handleFileChange (some f) st).1.inputValue = "" ∧
    (handleFileChange (some f) st).1.file = st.file ∧
    (handleFileChange (some f) st).2 = [] := by
  simp [handleFileChange, h]

/-- Witness for C9: the cap theorem applied to a file one byte over the
limit on an empty form. -/
theorem oversized_file_rejected_before_upload_witness :
    (⟨"big.zip", 52428801, "application/zip"⟩ : FileDesc).size >
      50 * 1024 * 1024 ∧
    ((handleFileChange (some ⟨"big.zip", 52428801, "application/zip"⟩)
        ⟨none, "", none⟩).1.errorMsg =
      some "File size exceeds the 50MB limit. Please select a smaller file." ∧
    (handleFileChange (some ⟨"big.zip", 52428801, "application/zip"⟩)
        ⟨none, "", none⟩).1.inputValue = "" ∧
    (handleFileChange (some ⟨"big.zip", 52428801, "application/zip"⟩)
        ⟨none, "", none⟩).1.file = (⟨none, "", none⟩ : FileInputState).file ∧
    (handleFileChange (some ⟨"big.zip", 52428801, "application/zip"⟩)
        ⟨none, "", none⟩).2 = []) :=
  ⟨by decide,
    oversized_file_rejected_before_upload ⟨"big.zip", 52428801,
      "application/zip"⟩ ⟨none, "", none⟩ (by decide)⟩

/-- C10: every request that resolves a content record is answered with a
Content-Disposition whose filename is the sanitized title followed by
`.html` — the extension is always `.html`, and the header depends only on
the title, never on the stored file reference. -/
theorem downloadApi_filename_always_html (d : DownloadRec) :
    (∃ stem : String, stem = sanitizeTitle d.title ∧
      downloadApiHandler (some d) =
        .fileAttachment ("attachment; filename=\"" ++ (stem ++ ".html") ++ "\"")
          "application/octet-stream" (d.downloads.getD 0 + 1)) ∧
    (∀ d' : DownloadRec, d'.title = d.title →
      (downloadApiHandler (some d')).disposition =
        (downloadApiHandler (some d)).disposition) := by
  constructor
  · refine ⟨sanitizeTitle d.title, rfl, ?_⟩
    simp [downloadApiHandler, String.append_assoc]
  · intro d' h
    simp [downloadApiHandler, ApiResponse.disposition, h]

/-- Witness for C10: the route theorem applied to a record whose stored
file reference ends in `.zip`; the filename is still `.html`. -/
theorem downloadApi_filename_always_html_witness :
    (∃ stem : String,
      stem = sanitizeTitle (⟨"https://sto.example/pack.zip", "Test Pack!",
        some 7⟩ : DownloadRec).title ∧
      downloadApiHandler (some ⟨"https://sto.example/pack.zip",
          "Test Pack!", some 7⟩) =
        .fileAttachment ("attachment; filename=\"" ++ (stem ++ ".html") ++ "\"")
          "application/octet-stream"
          ((⟨"https://sto.example/pack.zip", "Test Pack!",
            some 7⟩ : DownloadRec).downloads.getD 0 + 1)) ∧
    (∀ d' : DownloadRec,
      d'.title = (⟨"https://sto.example/pack.zip", "Test Pack!",
          some 7⟩ : DownloadRec).title →
      (downloadApiHandler (some d')).disposition =
        (downloadApiHandler (some ⟨"https://sto.example/pack.zip",
          "Test Pack!", some 7⟩)).disposition) :=
  downloadApi_filename_always_html
    ⟨"https://sto.example/pack.zip", "Test Pack!", some 7⟩
